import Mathlib

/-!
Shallow embedding of the core analysis pipeline of the Pair crypto scanner
(src/backend/data_fetcher.py, src/backend/analyzer.py, src/bot/scheduler.py).

Numbers are modelled by exact rationals.  The only places where floating-point
behaviour is observable in the claims are the two divisions inside
`calculate_rsi` (where IEEE gives `x/0 = inf` for `x > 0` and `0/0 = NaN`, and
`100 - 100/(1 + inf) = 100` exactly); these are modelled by an explicit case
split on a zero denominator, with `RsiValue.nan` standing for the float NaN
that every `<`, `<=`, `>` comparison treats as false.

Python `None` is modelled by `Option.none`; a Python function body that can
raise an uncaught exception is modelled in the `Except String` monad.  Python
dicts keyed by strings or ints are modelled as association lists with
`List.lookup`, and `d.get(k, 0)` as `(l.lookup k).getD 0`.

On analyzer.py lines 71 and 82 the source text reads `momentum_score = 0.7  |`
and `volatility_score = 0.5  |` followed by an Arabic comment; the stray `|`
is treated as comment noise (an encoding artifact of the inline comment) and
the assignments are embedded as plain `0.7` / `0.5`, which is what every other
description of these lines in the repository states.
-/

namespace PairScanner

/-- Result of the floating-point RSI computation: either a real number or the
IEEE NaN produced by `0/0`. -/
inductive RsiValue where
  | nan : RsiValue
  | val : ℚ → RsiValue
deriving DecidableEq

/-- One OHLCV candle; only the fields the embedded indicator code reads. -/
structure Candle where
  high : ℚ
  low : ℚ
  close : ℚ
deriving DecidableEq

/-- Ticker snapshot fields used by the scheduler (`fetch_ticker` result). -/
structure Ticker where
  last : ℚ
  volume : ℚ
  spread : ℚ
deriving DecidableEq

/-! ### data_fetcher.py : indicator functions -/

/-- CryptoDataFetcher.calculate_rsi (data_fetcher.py lines 322-358).
Closes shorter than `period+1` yield `none` (Python `None`).  Otherwise the
rolling means of gains and losses over the last `period` deltas are formed;
`rs = avg_gain / avg_loss` is an IEEE division, so a zero `avg_loss` gives
`inf` (whence RSI exactly 100) when `avg_gain > 0` and NaN when both are 0. -/
def calculate_rsi (closes : List ℚ) (period : Nat := 14) : Option RsiValue :=
  if closes.length < period + 1 then none
  else
    let deltas := List.zipWith (fun b a => b - a) closes.tail closes
    let window := deltas.drop (deltas.length - period)
    let avg_gain := (window.map (fun d => max d 0)).sum / period
    let avg_loss := (window.map (fun d => max (-d) 0)).sum / period
    if avg_loss = 0 then
      if avg_gain = 0 then some RsiValue.nan
      else some (RsiValue.val 100)
    else some (RsiValue.val (100 - 100 / (1 + avg_gain / avg_loss)))

/-- CryptoDataFetcher.calculate_atr (data_fetcher.py lines 285-320).
True range per candle against the previous close, rolling mean over the last
`period` entries.  With at least `period+1` candles the rolling window never
reaches the first (shifted-NaN) row, so the pairwise list suffices. -/
def calculate_atr (df : List Candle) (period : Nat := 14) : Option ℚ :=
  if df.length < period + 1 then none
  else
    let tr := List.zipWith
      (fun c p => max (c.high - c.low) (max |c.high - p.close| |c.low - p.close|))
      df.tail df
    let window := tr.drop (tr.length - period)
    some (window.sum / period)

/-- The per-period body of the returns loop (data_fetcher.py lines 385-395):
`(close[-1]/close[-p] - 1) * 100` when `p` candles exist and `close[-p] > 0`,
else the sentinel `0.0`.  Python's `iloc[-0]` means `iloc[0]`, reflected in
the `p = 0` case. -/
def returnAt (closes : List ℚ) (p : Nat) : ℚ :=
  if p ≤ closes.length then
    let start_price := if p = 0 then closes.getD 0 0 else closes.getD (closes.length - p) 0
    let end_price := closes.getD (closes.length - 1) 0
    if 0 < start_price then (end_price / start_price - 1) * 100 else 0
  else 0

/-- CryptoDataFetcher.calculate_returns (data_fetcher.py lines 360-403).
The result dict `{"return_<p>": value}` is modelled as an association list
keyed by the integer `p`.  If the series is shorter than the largest requested
period (`len(df) < max(periods)`), every requested period receives the
sentinel `0.0` up front; only otherwise is the per-period loop reached. -/
def calculate_returns (closes : List ℚ) (periods : List Nat := [1, 4, 24, 168]) :
    List (Nat × ℚ) :=
  if closes.length < periods.foldl max 0 then periods.map (fun p => (p, 0))
  else periods.map (fun p => (p, returnAt closes p))

/-! ### config.py constants -/

def MIN_LIQUIDITY_USD : ℚ := 10000000

def VOLATILITY_THRESHOLD : ℚ := 5

/-! ### analyzer.py : CoinAnalysis and CryptoAnalyzer -/

/-- The CoinAnalysis dataclass (analyzer.py lines 12-29).  `returns_vs_btc` is
the dict from horizon label to benchmark-relative return; `rsi` may be Python
`None` (Option) or the float NaN (RsiValue.nan). -/
structure CoinAnalysis where
  symbol : String
  price_usdt : ℚ
  price_btc : Option ℚ
  returns_vs_btc : List (String × ℚ)
  rsi : Option RsiValue
  atr_percent : Option ℚ
  volume_usd : ℚ
  spread_percent : ℚ
  score : ℚ := 0
  rank : Nat := 0
  recommendation : String := ""
  signals : List String := []
deriving DecidableEq

/-- Python round(x, 2).  Modelled with mathlib's round; no claim depends on
the behaviour at exact half-way ties. -/
def round2 (q : ℚ) : ℚ := ((round (q * 100) : ℤ) : ℚ) / 100

/-- np.clip(x, lo, hi). -/
def clip (lo hi x : ℚ) : ℚ := min (max x lo) hi

/-- The per-horizon weights of the performance sub-score (analyzer.py line 55). -/
def perfWeights : List (String × ℚ) := [("1h", 15/100), ("4h", 30/100), ("1d", 40/100), ("1w", 15/100)]

/-- The weighted sum across horizons feeding the performance sub-score
(analyzer.py lines 54-59): a horizon contributes only when its key is present
in the returns_vs_btc dict. -/
def perf_raw (coin : CoinAnalysis) : ℚ :=
  (perfWeights.map (fun tw =>
      match coin.returns_vs_btc.lookup tw.1 with
      | some v => v * tw.2
      | none => 0)).sum

/-- The momentum sub-score from RSI (analyzer.py lines 64-73): 1.0 strictly
inside (30, 70), 0.7 at either extreme, 0 when RSI is None; the float NaN
fails every band comparison, leaving the initial 0. -/
def momentum_score (coin : CoinAnalysis) : ℚ :=
  match coin.rsi with
  | some (RsiValue.val r) =>
      if 30 < r ∧ r < 70 then 1
      else if 70 ≤ r then 7/10
      else 7/10
  | some RsiValue.nan => 0
  | none => 0

/-- The volatility sub-score from ATR% (analyzer.py lines 76-84). -/
def volatility_score (coin : CoinAnalysis) : ℚ :=
  match coin.atr_percent with
  | some a =>
      if 1 ≤ a ∧ a ≤ VOLATILITY_THRESHOLD then 1
      else if a < 1 then 1/2
      else 3/10
  | none => 0

/-- The liquidity sub-score from quote volume (analyzer.py lines 87-94). -/
def liquidity_score (coin : CoinAnalysis) : ℚ :=
  if MIN_LIQUIDITY_USD * 2 ≤ coin.volume_usd then 1
  else if MIN_LIQUIDITY_USD ≤ coin.volume_usd then 7/10
  else 3/10

/-- The un-rounded accumulator of CryptoAnalyzer.score_coin
(analyzer.py lines 49-99), before the final round(score, 2); the volume-trend
sub-score is the hard-coded neutral 0.5 of line 98. -/
def rawScore (coin : CoinAnalysis) : ℚ :=
  (clip (-20) 20 (perf_raw coin) / 20 + 1) * (1/2) * (35/100) * 100
    + momentum_score coin * (25/100) * 100
    + volatility_score coin * (20/100) * 100
    + liquidity_score coin * (10/100) * 100
    + (1/2) * (10/100) * 100

/-- CryptoAnalyzer.score_coin (analyzer.py lines 49-101): the accumulated
weighted sub-scores, rounded to two decimals. -/
def score_coin (coin : CoinAnalysis) : ℚ := round2 (rawScore coin)

/-- CryptoAnalyzer.detect_signals (analyzer.py lines 103-129).  The comparison
`coin.rsi < 30` is applied to a possibly-`None` value without a guard; on
`None` Python raises TypeError, modelled as `Except.error`.  The float NaN
fails every comparison, so it produces no RSI tag.  `coin.atr_percent and ...`
uses Python truthiness, so `None` and `0.0` both skip the volatility tags. -/
def detect_signals (coin : CoinAnalysis) (btc_analysis : CoinAnalysis) :
    Except String (List String) :=
  let relTags : List String :=
    (match coin.returns_vs_btc.lookup "1h" with
     | some v => if 2 < v then ["STRONG_VS_BTC_1H"] else []
     | none => []) ++
    (match coin.returns_vs_btc.lookup "4h" with
     | some v => if 5 < v then ["STRONG_VS_BTC_4H"] else []
     | none => [])
  match coin.rsi with
  | none => Except.error "TypeError: NoneType comparison in detect_signals"
  | some r =>
    let rsiTags : List String :=
      match r with
      | RsiValue.nan => []
      | RsiValue.val x => if x < 30 then ["RSI_OVERSOLD"] else if 70 < x then ["RSI_OVERBOUGHT"] else []
    let atrTags : List String :=
      match coin.atr_percent with
      | some a =>
          if a ≠ 0 ∧ a < 1 then ["LOW_VOLATILITY"]
          else if a ≠ 0 ∧ 8 < a then ["HIGH_VOLATILITY"]
          else []
      | none => []
    let liqTags : List String :=
      if coin.volume_usd < MIN_LIQUIDITY_USD then ["LOW_LIQUIDITY"] else []
    Except.ok (relTags ++ rsiTags ++ atrTags ++ liqTags)

/-- CryptoAnalyzer.generate_recommendation (analyzer.py lines 131-146). -/
def generate_recommendation (score : ℚ) (signals : List String) : String :=
  if 80 ≤ score then "STRONG_BUY"
  else if 70 ≤ score then "BUY"
  else if 60 ≤ score then "MILD_BUY"
  else if 40 ≤ score then "NEUTRAL"
  else if 30 ≤ score then "MILD_SELL"
  else if 20 ≤ score then "SELL"
  else "STRONG_SELL"

/-- The dict returned by CryptoAnalyzer.analyze_pair (analyzer.py lines 156-163). -/
structure PairAnalysis where
  pair : String
  score_difference : ℚ
  performance_difference_4h : ℚ
  pair_score : ℚ
  recommendation : String
  entry_logic : String
deriving DecidableEq

/-- Python symbol.split('/')[0]. -/
def baseAsset (symbol : String) : String := (symbol.splitOn "/").headD ""

/-- CryptoAnalyzer.analyze_pair (analyzer.py lines 148-176). -/
def analyze_pair (coin1 coin2 : CoinAnalysis) : PairAnalysis :=
  let pair_score := |coin1.score - coin2.score| / 100
  let score_diff := coin1.score - coin2.score
  let perf_diff_4h := ((coin1.returns_vs_btc.lookup "4h").getD 0)
    - ((coin2.returns_vs_btc.lookup "4h").getD 0)
  let b1 := baseAsset coin1.symbol
  let b2 := baseAsset coin2.symbol
  if 20 < score_diff ∧ 3 < perf_diff_4h then
    { pair := b1 ++ "/" ++ b2, score_difference := score_diff,
      performance_difference_4h := perf_diff_4h, pair_score := pair_score * 100,
      recommendation := "LONG_" ++ b1 ++ "_SHORT_" ++ b2,
      entry_logic := "Strong vs Weak momentum" }
  else if score_diff < -20 ∧ perf_diff_4h < -3 then
    { pair := b1 ++ "/" ++ b2, score_difference := score_diff,
      performance_difference_4h := perf_diff_4h, pair_score := pair_score * 100,
      recommendation := "LONG_" ++ b2 ++ "_SHORT_" ++ b1,
      entry_logic := "Weak vs Strong mean reversion" }
  else
    { pair := b1 ++ "/" ++ b2, score_difference := score_diff,
      performance_difference_4h := perf_diff_4h, pair_score := pair_score * 100,
      recommendation := "NEUTRAL", entry_logic := "No clear edge" }

/-- Python sorted(key=lambda x: x.score, reverse=True): stable descending sort
by score, modelled by the stable mergeSort with this relation. -/
def scoreDescBool (a b : CoinAnalysis) : Bool := decide (b.score ≤ a.score)

/-- Python sorted(key=lambda x: abs(x.score_difference), reverse=True)
(analyzer.py line 197). -/
def absDescBool (a b : PairAnalysis) : Bool :=
  decide (|b.score_difference| ≤ |a.score_difference|)

/-- CryptoAnalyzer.find_best_pairs (analyzer.py lines 178-197).
`sorted_coins[-top_n:]` with `top_n = 0` is the whole list in Python, hence
the case split on `top_n`. -/
def find_best_pairs (coins_analysis : List CoinAnalysis) (top_n : Nat := 5) :
    List PairAnalysis :=
  let sorted_coins := coins_analysis.mergeSort scoreDescBool
  let top_coins := sorted_coins.take top_n
  let bottom_coins :=
    if top_n = 0 then sorted_coins else sorted_coins.drop (sorted_coins.length - top_n)
  let pairs := top_coins.flatMap (fun strong =>
    bottom_coins.filterMap (fun weak =>
      if strong.symbol ≠ weak.symbol then
        let pa := analyze_pair strong weak
        if pa.recommendation ≠ "NEUTRAL" then some pa else none
      else none))
  (pairs.mergeSort absDescBool).take top_n

/-! ### scheduler.py : CryptoScheduler.fetch_all_data and analyze_and_notify

The data provider is abstracted as an environment: `fetch_ticker` and
`fetch_ohlcv` (always called with timeframe "1h", limit 200) either return a
payload or `None`.  Everything downstream of the fetches is deterministic, so
one cycle of `fetch_all_data` is a pure function of the environment.  The
`timestamp` and `market_status` entries of the result dict are wall-clock /
aggregate bookkeeping not referenced by any claim and are omitted. -/

/-- The fetch collaborator for one cycle. -/
structure Env where
  ticker : String → Option Ticker
  ohlcv : String → Option (List Candle)

/-- config.COINS_TO_MONITOR. -/
def COINS_TO_MONITOR : List String :=
  ["BTC", "ETH", "BNB", "XRP", "ADA", "SOL", "DOGE", "DOT", "MATIC", "AVAX",
   "LTC", "UNI", "LINK", "ATOM", "XLM"]

/-- The returns_vs_btc dict built in the universe loop
(scheduler.py lines 79-84): `returns.get('return_N', 0) - btc_returns.get('return_N', 0)`
for N in 1, 4, 24, 168, labelled 1h/4h/1d/1w. -/
def returnsVsBtc (returns btc_returns : List (Nat × ℚ)) : List (String × ℚ) :=
  [("1h", (returns.lookup 1).getD 0 - (btc_returns.lookup 1).getD 0),
   ("4h", (returns.lookup 4).getD 0 - (btc_returns.lookup 4).getD 0),
   ("1d", (returns.lookup 24).getD 0 - (btc_returns.lookup 24).getD 0),
   ("1w", (returns.lookup 168).getD 0 - (btc_returns.lookup 168).getD 0)]

/-- Python `(atr / last * 100) if atr else None`: both `None` and the falsy
`0.0` give `None`. -/
def atrPercent (atr : Option ℚ) (last : ℚ) : Option ℚ :=
  match atr with
  | some a => if a = 0 then none else some (a / last * 100)
  | none => none

/-- The benchmark CoinAnalysis built in scheduler.py lines 44-53.  Note
`returns_vs_btc={}`: the benchmark's own relative-return mapping is empty. -/
def mkBtcAnalysis (btc_data : Ticker) (btc_ohlcv : List Candle) : CoinAnalysis :=
  { symbol := "BTC/USDT", price_usdt := btc_data.last, price_btc := some 1,
    returns_vs_btc := [],
    rsi := calculate_rsi (btc_ohlcv.map Candle.close),
    atr_percent := atrPercent (calculate_atr btc_ohlcv) btc_data.last,
    volume_usd := btc_data.volume, spread_percent := btc_data.spread }

/-- One iteration of the universe loop (scheduler.py lines 58-105) for a
non-benchmark coin: `Except.ok none` models the `continue` on a failed fetch,
`Except.ok (some _)` a completed analysis, and `Except.error _` an uncaught
exception from the body (there is no per-symbol handler in the source). -/
def processCoin (env : Env) (btc_returns : List (Nat × ℚ))
    (btc_analysis : CoinAnalysis) (coin : String) :
    Except String (Option CoinAnalysis) :=
  match env.ticker (coin ++ "/USDT"), env.ohlcv (coin ++ "/USDT") with
  | some ticker_usdt, some ohlcv =>
    let ticker_btc := env.ticker (coin ++ "/BTC")
    let closes := ohlcv.map Candle.close
    let returns := calculate_returns closes [1, 4, 24, 168]
    let base : CoinAnalysis :=
      { symbol := coin ++ "/USDT", price_usdt := ticker_usdt.last,
        price_btc := ticker_btc.map Ticker.last,
        returns_vs_btc := returnsVsBtc returns btc_returns,
        rsi := calculate_rsi closes,
        atr_percent := atrPercent (calculate_atr ohlcv) ticker_usdt.last,
        volume_usd := ticker_usdt.volume, spread_percent := ticker_usdt.spread }
    let scored := { base with score := score_coin base }
    match detect_signals scored btc_analysis with
    | Except.error e => Except.error e
    | Except.ok sigs =>
      Except.ok (some { scored with
        signals := sigs
        recommendation := generate_recommendation scored.score sigs })
  | _, _ => Except.ok none

/-- The post-loop sort and rank assignment (scheduler.py lines 107-112):
sort by score descending, then `coin.rank = i` for `i` in `enumerate(_, 1)`. -/
def rankCoins (l : List CoinAnalysis) : List CoinAnalysis :=
  ((l.mergeSort scoreDescBool).enum).map fun ic => { ic.2 with rank := ic.1 + 1 }

/-- The parts of the fetch_all_data result dict referenced by the claims. -/
structure CycleResult where
  btc_analysis : CoinAnalysis
  coins_analysis : List CoinAnalysis
  top_pairs : List PairAnalysis
deriving DecidableEq

/-- CryptoScheduler.fetch_all_data (scheduler.py lines 27-132).  A benchmark
fetch failure, or any exception escaping the universe loop, is re-raised by
the enclosing handler, so the cycle produces `Except.error`. -/
def fetch_all_data (env : Env) : Except String CycleResult :=
  match env.ticker "BTC/USDT", env.ohlcv "BTC/USDT" with
  | some btc_data, some btc_ohlcv =>
    let btc_returns := calculate_returns (btc_ohlcv.map Candle.close) [1, 4, 24, 168]
    let btc_analysis := mkBtcAnalysis btc_data btc_ohlcv
    match (COINS_TO_MONITOR.filter (fun c => c ≠ "BTC")).foldlM
        (fun acc coin =>
          match processCoin env btc_returns btc_analysis coin with
          | Except.error e => Except.error e
          | Except.ok (some ca) => Except.ok (acc ++ [ca])
          | Except.ok none => Except.ok acc)
        ([] : List CoinAnalysis) with
    | Except.error e => Except.error e
    | Except.ok all_analysis =>
      let ranked := rankCoins all_analysis
      Except.ok { btc_analysis := btc_analysis, coins_analysis := ranked,
                  top_pairs := find_best_pairs ranked 5 }
  | _, _ => Except.error "Failed to fetch BTC data"

/-- Python `"STRONG_" in s` (scheduler.py line 166): a nonempty separator
occurs in `s` iff splitting on it yields more than one part. -/
def strongTag (s : String) : Bool := decide (1 < (s.splitOn "STRONG_").length)

/-- The strong-signal selection of analyze_and_notify (scheduler.py lines
164-167): coins with score at least 80 or a recommendation containing
"STRONG_". -/
def strongSignalCoins (coins : List CoinAnalysis) : List CoinAnalysis :=
  coins.filter fun c => decide (80 ≤ c.score) || strongTag c.recommendation

/-- Only the first three strong signals are notified (scheduler.py line 170). -/
def notifiedCoins (coins : List CoinAnalysis) : List CoinAnalysis :=
  (strongSignalCoins coins).take 3

/-- The top-pair notification guard (scheduler.py lines 178-191): a trading
signal is sent iff the pair list is nonempty and its head's pair_score
exceeds 60. -/
def topPairNotified (top_pairs : List PairAnalysis) : Bool :=
  match top_pairs with
  | [] => false
  | best :: _ => decide (60 < best.pair_score)

/-! ### Concrete fixtures used by the claim theorems -/

/-- A candle with the given close and a one-unit range around it. -/
def mkCandle (c : ℚ) : Candle := { high := c + 1, low := c - 1, close := c }

/-- A 20-candle benchmark series with rising closes. -/
def btcSeries : List Candle := (List.range 20).map fun i => mkCandle (100 + i)

/-- A 10-candle series: long enough to fetch, too short for RSI (needs 15). -/
def ethShortSeries : List Candle := (List.range 10).map fun i => mkCandle (200 + i)

/-- Environment for one cycle in which every fetch for the benchmark succeeds
and ETH/USDT returns a valid ticker but only 10 candles of history; all other
universe symbols fail to fetch. -/
def envShortEth : Env :=
  { ticker := fun s =>
      if s = "BTC/USDT" then some { last := 50000, volume := 6000000000, spread := 1/100 }
      else if s = "ETH/USDT" then some { last := 2000, volume := 3000000000, spread := 2/100 }
      else none,
    ohlcv := fun s =>
      if s = "BTC/USDT" then some btcSeries
      else if s = "ETH/USDT" then some ethShortSeries
      else none }

/-- Environment in which only the benchmark's fetches succeed: every universe
symbol is skipped by the `continue` branch, so the cycle completes. -/
def envBtcOnly : Env :=
  { ticker := fun s =>
      if s = "BTC/USDT" then some { last := 50000, volume := 6000000000, spread := 1/100 }
      else none,
    ohlcv := fun s =>
      if s = "BTC/USDT" then some btcSeries else none }

/-! ### Helper lemmas -/

lemma start_le_foldl_max : ∀ (l : List Nat) (a : Nat), a ≤ l.foldl max a := by
  intro l
  induction l with
  | nil => intro a; exact Nat.le_refl a
  | cons b t ih =>
    intro a
    exact Nat.le_trans (Nat.le_max_left a b) (ih (max a b))

lemma mem_le_foldl_max : ∀ (l : List Nat) (a p : Nat), p ∈ l → p ≤ l.foldl max a := by
  intro l
  induction l with
  | nil => intro a p hp; cases hp
  | cons b t ih =>
    intro a p hp
    rcases List.mem_cons.mp hp with rfl | h
    · exact Nat.le_trans (Nat.le_max_right a p) (start_le_foldl_max t (max a p))
    · exact ih (max a b) p h

lemma lookup_map_key {g : Nat → ℚ} :
    ∀ (l : List Nat) (p : Nat), p ∈ l → (l.map (fun q => (q, g q))).lookup p = some (g p) := by
  intro l
  induction l with
  | nil => intro p hp; cases hp
  | cons a t ih =>
    intro p hp
    by_cases hpa : p = a
    · subst hpa
      simp [List.lookup]
    · have hmem : p ∈ t := by
        rcases List.mem_cons.mp hp with h | h
        · exact absurd h hpa
        · exact h
      have hbeq : (p == a) = false := beq_eq_false_iff_ne.mpr hpa
      simp only [List.map_cons, List.lookup, hbeq]
      exact ih p hmem

/-! ### Claim theorems -/

/-- C1: refuted on the code.  In a cycle where the benchmark fetches succeed
and one universe symbol (ETH) returns a valid ticker but a series too short
for RSI, the unguarded `coin.rsi < 30` in detect_signals raises, no
per-symbol handler exists, and fetch_all_data re-raises: the whole cycle
aborts with an error instead of merely omitting that symbol. -/
theorem c1_short_series_aborts_cycle :
    fetch_all_data envShortEth =
      Except.error "TypeError: NoneType comparison in detect_signals" := by
  rfl

/-- C2: refuted on the code.  A series shorter than period+1 does yield
Unavailable (first conjunct, the part of the claim that holds), but on a flat
series of 15 equal closes both rolling averages are zero, `rs = 0/0` is the
float NaN, and calculate_rsi returns NaN rather than the claimed 100. -/
theorem c2_flat_series_gives_nan :
    calculate_rsi (List.replicate 14 (100 : ℚ)) = none ∧
    calculate_rsi (List.replicate 15 (100 : ℚ)) = some RsiValue.nan := by
  refine ⟨rfl, ?_⟩
  unfold calculate_rsi
  rw [if_neg (by simp)]
  have hdeltas : List.zipWith (fun b a => b - a)
      (List.replicate 15 (100 : ℚ)).tail (List.replicate 15 (100 : ℚ)) =
      List.replicate 14 0 := by
    rw [show (List.replicate 15 (100 : ℚ)).tail = List.replicate 14 100 from by simp,
      List.zipWith_replicate]
    norm_num
  rw [hdeltas]
  simp

/-- C3 counterexample: with closes [1, 2, 4, 8] and requested horizons
[2, 8], the 2-period horizon has enough candles (2 ≤ 4) and the claimed
formula value (8/4 - 1) * 100 = 100 is nonzero, yet calculate_returns yields
the sentinel 0 for it, because the whole request is zeroed when the series is
shorter than the largest horizon. -/
theorem c3_short_request_zeroes_all_horizons :
    (calculate_returns [1, 2, 4, 8] [2, 8]).lookup 2 = some 0 ∧
    2 ≤ ([1, 2, 4, 8] : List ℚ).length ∧
    (((8 : ℚ) / 4 - 1) * 100 ≠ 0) := by
  refine ⟨rfl, by decide, by norm_num⟩

/-- C3 amended: when the series is shorter than the largest requested
horizon, every requested horizon—including those with enough candles—gets
the sentinel 0; only when the series covers the largest horizon does each
horizon get its per-period value, which equals (close[-1]/close[-N] - 1)*100
whenever 1 ≤ N ≤ length and close[-N] > 0. -/
theorem c3_returns_per_horizon (closes : List ℚ) (periods : List Nat) (p : Nat)
    (hp : p ∈ periods) :
    (closes.length < periods.foldl max 0 →
      (calculate_returns closes periods).lookup p = some 0) ∧
    (periods.foldl max 0 ≤ closes.length →
      (calculate_returns closes periods).lookup p = some (returnAt closes p)) ∧
    (1 ≤ p → p ≤ closes.length → 0 < closes.getD (closes.length - p) 0 →
      returnAt closes p =
        (closes.getD (closes.length - 1) 0 / closes.getD (closes.length - p) 0 - 1) * 100) := by
  refine ⟨?_, ?_, ?_⟩
  · intro hshort
    unfold calculate_returns
    rw [if_pos hshort]
    exact lookup_map_key periods p hp
  · intro hlong
    unfold calculate_returns
    rw [if_neg (by omega)]
    exact lookup_map_key periods p hp
  · intro h1 hlen hpos
    unfold returnAt
    have hne : ¬ p = 0 := by omega
    rw [if_pos hlen]
    simp only [if_neg hne]
    rw [if_pos hpos]

/-- Witness for c3_returns_per_horizon at closes [1, 2, 4, 8], periods
[2, 4], horizon 4: the series covers the largest horizon, so the 4-period
return is (8/1 - 1) * 100 = 700. -/
theorem c3_returns_per_horizon_witness :
    (calculate_returns [1, 2, 4, 8] [2, 4]).lookup 4 = some 700 := by
  have h := (c3_returns_per_horizon [1, 2, 4, 8] [2, 4] 4 (by decide)).2.1 (by decide)
  rw [h]
  norm_num [returnAt]

/-- C9 counterexample: in a cycle where only the benchmark's fetches succeed,
fetch_all_data completes, and the benchmark asset's own benchmark-relative
return mapping is the empty dict (scheduler.py line 48) rather than a zero
vector: looking up the 4h horizon yields nothing. -/
theorem c9_benchmark_has_empty_mapping :
    Except.map (fun r => r.btc_analysis.returns_vs_btc) (fetch_all_data envBtcOnly) =
      Except.ok [] ∧
    Except.map (fun r => (r.btc_analysis.returns_vs_btc).lookup "4h")
      (fetch_all_data envBtcOnly) = Except.ok none := by
  exact ⟨rfl, rfl⟩

/-- C9 amended: for every monitored non-benchmark asset the universe loop
builds the relative vector by per-horizon subtraction, so whenever the
asset's raw returns agree with the benchmark's at horizons 1, 4, 24 and 168,
the computed vector is exactly the zero vector over the labels 1h, 4h, 1d,
1w; the benchmark asset itself is excluded from the loop and carries an empty
mapping instead. -/
theorem c9_equal_returns_zero_vector (returns btc_returns : List (Nat × ℚ))
    (h1 : (returns.lookup 1).getD 0 = (btc_returns.lookup 1).getD 0)
    (h4 : (returns.lookup 4).getD 0 = (btc_returns.lookup 4).getD 0)
    (h24 : (returns.lookup 24).getD 0 = (btc_returns.lookup 24).getD 0)
    (h168 : (returns.lookup 168).getD 0 = (btc_returns.lookup 168).getD 0) :
    returnsVsBtc returns btc_returns = [("1h", 0), ("4h", 0), ("1d", 0), ("1w", 0)] := by
  unfold returnsVsBtc
  rw [h1, h4, h24, h168]
  simp

/-- Witness for c9_equal_returns_zero_vector: an asset whose raw returns
coincide with the benchmark's gets the zero vector. -/
theorem c9_equal_returns_zero_vector_witness :
    returnsVsBtc [(1, 3), (4, 7), (24, 2), (168, 9)] [(1, 3), (4, 7), (24, 2), (168, 9)] =
      [("1h", 0), ("4h", 0), ("1d", 0), ("1w", 0)] :=
  c9_equal_returns_zero_vector _ _ rfl rfl rfl rfl

lemma momentum_score_bounds (c : CoinAnalysis) :
    0 ≤ momentum_score c ∧ momentum_score c ≤ 1 := by
  unfold momentum_score
  cases c.rsi with
  | none => norm_num
  | some v =>
    cases v with
    | nan => norm_num
    | val r =>
      dsimp only
      split_ifs <;> norm_num

lemma volatility_score_bounds (c : CoinAnalysis) :
    0 ≤ volatility_score c ∧ volatility_score c ≤ 1 := by
  unfold volatility_score
  cases c.atr_percent with
  | none => norm_num
  | some a =>
    dsimp only
    split_ifs <;> norm_num

lemma liquidity_score_bounds (c : CoinAnalysis) :
    3/10 ≤ liquidity_score c ∧ liquidity_score c ≤ 1 := by
  unfold liquidity_score
  split_ifs <;> norm_num

lemma rawScore_bounds (c : CoinAnalysis) : 0 ≤ rawScore c ∧ rawScore c ≤ 95 := by
  obtain ⟨hm0, hm1⟩ := momentum_score_bounds c
  obtain ⟨hv0, hv1⟩ := volatility_score_bounds c
  obtain ⟨hl0, hl1⟩ := liquidity_score_bounds c
  have hp0 : (-20 : ℚ) ≤ clip (-20) 20 (perf_raw c) :=
    le_min (le_max_right _ _) (by norm_num)
  have hp1 : clip (-20) 20 (perf_raw c) ≤ 20 := min_le_right _ _
  unfold rawScore
  constructor <;> linarith

lemma round2_bounds {q : ℚ} (h0 : 0 ≤ q) (h1 : q ≤ 95) :
    0 ≤ round2 q ∧ round2 q ≤ 100 := by
  unfold round2
  constructor
  · apply div_nonneg _ (by norm_num)
    have hz : (0 : ℤ) ≤ round (q * 100) := by
      rw [round_eq]
      exact Int.le_floor.mpr (by push_cast; linarith)
    exact_mod_cast hz
  · have hup : round (q * 100) ≤ 9500 := by
      rw [round_eq]
      have hfl : (⌊(9500 : ℚ) + 1/2⌋ : ℤ) = 9500 := by
        rw [Int.floor_eq_iff]
        constructor <;> norm_num
      calc ⌊q * 100 + 1/2⌋ ≤ ⌊(9500 : ℚ) + 1/2⌋ := Int.floor_le_floor (by linarith)
        _ = 9500 := hfl
    have hk : ((round (q * 100) : ℤ) : ℚ) ≤ 9500 := by exact_mod_cast hup
    linarith

/-- C4: composite scoring is a pure deterministic function of the
CoinAnalysis record: re-application yields the identical value, the value is
an integer number of hundredths (rounded to 2 decimals), and it always lies
in [0, 100] (in fact in [0, 95], since the sub-scores are bounded by their
weights). -/
theorem c4_score_pure_rounded_bounded (coin : CoinAnalysis) :
    score_coin coin = score_coin coin ∧
    (∃ k : ℤ, score_coin coin = (k : ℚ) / 100) ∧
    0 ≤ score_coin coin ∧ score_coin coin ≤ 100 := by
  obtain ⟨h0, h1⟩ := rawScore_bounds coin
  obtain ⟨hb0, hb1⟩ := round2_bounds h0 h1
  exact ⟨rfl, ⟨round (rawScore coin * 100), rfl⟩, hb0, hb1⟩

/-- Every pair emitted by find_best_pairs comes from a strong coin at an
index below top_n of the score-descending sort and a weak coin at an index in
the final top_n block, with distinct symbols and a non-NEUTRAL analysis. -/
lemma find_best_pairs_sources {coins : List CoinAnalysis} {n : Nat} {p : PairAnalysis}
    (hp : p ∈ find_best_pairs coins n) :
    ∃ (i j : Nat) (hi : i < (coins.mergeSort scoreDescBool).length)
      (hj : j < (coins.mergeSort scoreDescBool).length),
      i < n ∧ (coins.mergeSort scoreDescBool).length - n ≤ j ∧
      ((coins.mergeSort scoreDescBool).get ⟨i, hi⟩).symbol ≠
        ((coins.mergeSort scoreDescBool).get ⟨j, hj⟩).symbol ∧
      (analyze_pair ((coins.mergeSort scoreDescBool).get ⟨i, hi⟩)
        ((coins.mergeSort scoreDescBool).get ⟨j, hj⟩)).recommendation ≠ "NEUTRAL" ∧
      p = analyze_pair ((coins.mergeSort scoreDescBool).get ⟨i, hi⟩)
        ((coins.mergeSort scoreDescBool).get ⟨j, hj⟩) := by
  unfold find_best_pairs at hp
  have hp1 := List.mem_mergeSort.mp (List.mem_of_mem_take hp)
  rw [List.mem_flatMap] at hp1
  obtain ⟨strong, hstrong, hp2⟩ := hp1
  rw [List.mem_filterMap] at hp2
  obtain ⟨weak, hweak, hgw⟩ := hp2
  by_cases hsym : strong.symbol ≠ weak.symbol
  · rw [if_pos hsym] at hgw
    by_cases hrec : (analyze_pair strong weak).recommendation ≠ "NEUTRAL"
    · rw [if_pos hrec] at hgw
      have hpair := Option.some.inj hgw
      -- locate strong in the take block
      obtain ⟨⟨i, hi'⟩, hsi⟩ := List.mem_iff_get.mp hstrong
      have hi_lt_n : i < n := by
        have := hi'
        simp only [List.length_take] at this
        omega
      have hi_sorted : i < (coins.mergeSort scoreDescBool).length := by
        have := hi'
        simp only [List.length_take] at this
        omega
      have hstrong_eq : (coins.mergeSort scoreDescBool).get ⟨i, hi_sorted⟩ = strong := by
        rw [← hsi]
        simp [List.getElem_take]
      -- locate weak in the bottom block
      rcases Nat.eq_zero_or_pos n with hn0 | hnpos
      · exact absurd hi_lt_n (by omega)
      · have hbot : weak ∈ (coins.mergeSort scoreDescBool).drop
            ((coins.mergeSort scoreDescBool).length - n) := by
          have hne : n ≠ 0 := Nat.pos_iff_ne_zero.mp hnpos
          simpa [hne] using hweak
        obtain ⟨⟨j', hj'⟩, hsj⟩ := List.mem_iff_get.mp hbot
        have hj_sorted : (coins.mergeSort scoreDescBool).length - n + j' <
            (coins.mergeSort scoreDescBool).length := by
          have := hj'
          simp only [List.length_drop] at this
          omega
        have hweak_eq : (coins.mergeSort scoreDescBool).get
            ⟨(coins.mergeSort scoreDescBool).length - n + j', hj_sorted⟩ = weak := by
          rw [← hsj]
          simp [List.getElem_drop]
        refine ⟨i, (coins.mergeSort scoreDescBool).length - n + j', hi_sorted, hj_sorted,
          hi_lt_n, Nat.le_add_right _ _, ?_, ?_, ?_⟩
        · rw [hstrong_eq, hweak_eq]; exact hsym
        · rw [hstrong_eq, hweak_eq]; exact hrec
        · rw [hstrong_eq, hweak_eq]; exact hpair.symm
    · rw [if_neg hrec] at hgw
      cases hgw
  · rw [if_neg hsym] at hgw
    cases hgw

/-- C5: no pair candidate returned by find_best_pairs pairs a symbol with
itself: every candidate arises from two input coins with distinct symbols. -/
theorem c5_no_self_pair (coins : List CoinAnalysis) (top_n : Nat) (p : PairAnalysis)
    (hp : p ∈ find_best_pairs coins top_n) :
    ∃ c1 c2, c1 ∈ coins ∧ c2 ∈ coins ∧ c1.symbol ≠ c2.symbol ∧ p = analyze_pair c1 c2 := by
  obtain ⟨i, j, hi, hj, _, _, hsym, _, hpair⟩ := find_best_pairs_sources hp
  refine ⟨(coins.mergeSort scoreDescBool).get ⟨i, hi⟩,
    (coins.mergeSort scoreDescBool).get ⟨j, hj⟩, ?_, ?_, hsym, hpair⟩
  · exact List.mem_mergeSort.mp (List.get_mem _ _ _)
  · exact List.mem_mergeSort.mp (List.get_mem _ _ _)

lemma absDescBool_trans : ∀ a b c : PairAnalysis,
    absDescBool a b → absDescBool b c → absDescBool a c := by
  intro a b c hab hbc
  simp only [absDescBool, decide_eq_true_eq] at hab hbc ⊢
  exact le_trans hbc hab

lemma absDescBool_total : ∀ a b : PairAnalysis, absDescBool a b || absDescBool b a := by
  intro a b
  simp only [absDescBool, Bool.or_eq_true, decide_eq_true_eq]
  exact le_total _ _

/-- C6: a pair analysis carries the momentum recommendation
LONG_strong_SHORT_weak with rationale "Strong vs Weak momentum" exactly when
score_diff exceeds 20 and the 4h performance differential exceeds 3; NEUTRAL
pairs never appear in the find_best_pairs output, which is sorted by absolute
score difference descending and truncated to at most top_n entries. -/
theorem c6_pair_rules (c1 c2 : CoinAnalysis) (coins : List CoinAnalysis) (n : Nat) :
    (((analyze_pair c1 c2).recommendation =
        "LONG_" ++ baseAsset c1.symbol ++ "_SHORT_" ++ baseAsset c2.symbol ∧
      (analyze_pair c1 c2).entry_logic = "Strong vs Weak momentum") ↔
      (20 < c1.score - c2.score ∧
        3 < (c1.returns_vs_btc.lookup "4h").getD 0 -
          (c2.returns_vs_btc.lookup "4h").getD 0)) ∧
    (∀ p ∈ find_best_pairs coins n, p.recommendation ≠ "NEUTRAL") ∧
    List.Pairwise (fun a b => |b.score_difference| ≤ |a.score_difference|)
      (find_best_pairs coins n) ∧
    (find_best_pairs coins n).length ≤ n := by
  refine ⟨?_, ?_, ?_, ?_⟩
  · unfold analyze_pair
    dsimp only
    split_ifs with h1 h2
    · exact iff_of_true ⟨rfl, rfl⟩ h1
    · refine iff_of_false ?_ h1
      rintro ⟨-, hlog⟩
      exact absurd hlog
        (show ¬("Weak vs Strong mean reversion" = "Strong vs Weak momentum") by decide)
    · refine iff_of_false ?_ h1
      rintro ⟨-, hlog⟩
      exact absurd hlog
        (show ¬("No clear edge" = "Strong vs Weak momentum") by decide)
  · intro p hp
    obtain ⟨i, j, hi, hj, _, _, _, hrec, hpair⟩ := find_best_pairs_sources hp
    rw [hpair]
    exact hrec
  · unfold find_best_pairs
    apply List.Pairwise.sublist (List.take_sublist _ _)
    have h := List.sorted_mergeSort absDescBool_trans absDescBool_total
      ((coins.mergeSort scoreDescBool).take n |>.flatMap (fun strong =>
        ((if n = 0 then coins.mergeSort scoreDescBool
          else (coins.mergeSort scoreDescBool).drop
            ((coins.mergeSort scoreDescBool).length - n)).filterMap (fun weak =>
          if strong.symbol ≠ weak.symbol then
            let pa := analyze_pair strong weak
            if pa.recommendation ≠ "NEUTRAL" then some pa else none
          else none))))
    exact h.imp (fun hb => by simpa [absDescBool] using hb)
  · unfold find_best_pairs
    exact List.length_take_le _ _

lemma scoreDescBool_trans : ∀ a b c : CoinAnalysis,
    scoreDescBool a b → scoreDescBool b c → scoreDescBool a c := by
  intro a b c hab hbc
  simp only [scoreDescBool, decide_eq_true_eq] at hab hbc ⊢
  exact le_trans hbc hab

lemma scoreDescBool_total : ∀ a b : CoinAnalysis, scoreDescBool a b || scoreDescBool b a := by
  intro a b
  simp only [scoreDescBool, Bool.or_eq_true, decide_eq_true_eq]
  exact le_total _ _

/-- C10: when the analysed list has at least 2*top_n elements, strong
candidates (indices below top_n of the descending sort) never score below
weak candidates (indices in the final top_n block), so the mean-reversion
branch of analyze_pair is unreachable from find_best_pairs: every returned
candidate carries the momentum rationale and a score difference above 20. -/
theorem c10_mean_reversion_unreachable (coins : List CoinAnalysis) (n : Nat)
    (hlen : 2 * n ≤ coins.length) (p : PairAnalysis)
    (hp : p ∈ find_best_pairs coins n) :
    p.entry_logic = "Strong vs Weak momentum" ∧
    p.entry_logic ≠ "Weak vs Strong mean reversion" ∧
    20 < p.score_difference := by
  obtain ⟨i, j, hi, hj, hin, hjge, hsym, hrec, hpair⟩ := find_best_pairs_sources hp
  have hlen' : (coins.mergeSort scoreDescBool).length = coins.length :=
    List.length_mergeSort coins
  have hij : i < j := by omega
  have hpw := List.sorted_mergeSort scoreDescBool_trans scoreDescBool_total coins
  have hrel := List.pairwise_iff_get.mp hpw ⟨i, hi⟩ ⟨j, hj⟩ hij
  have hscore : ((coins.mergeSort scoreDescBool).get ⟨j, hj⟩).score ≤
      ((coins.mergeSort scoreDescBool).get ⟨i, hi⟩).score := by
    simpa [scoreDescBool] using hrel
  set s := (coins.mergeSort scoreDescBool).get ⟨i, hi⟩ with hs
  set w := (coins.mergeSort scoreDescBool).get ⟨j, hj⟩ with hw
  by_cases h1 : 20 < s.score - w.score ∧
      3 < (s.returns_vs_btc.lookup "4h").getD 0 - (w.returns_vs_btc.lookup "4h").getD 0
  · rw [hpair]
    unfold analyze_pair
    dsimp only
    rw [if_pos h1]
    exact ⟨rfl,
      show ¬("Strong vs Weak momentum" = "Weak vs Strong mean reversion") by decide, h1.1⟩
  · exfalso
    apply hrec
    unfold analyze_pair
    dsimp only
    have h2 : ¬(s.score - w.score < -20 ∧
        (s.returns_vs_btc.lookup "4h").getD 0 -
          (w.returns_vs_btc.lookup "4h").getD 0 < -3) := by
      rintro ⟨h2a, -⟩
      linarith
    rw [if_neg h1, if_neg h2]

/-- Element-wise description of rankCoins: position i of the ranked list is
the i-th element of the score-descending sort with rank field i+1. -/
lemma rankCoins_get (l : List CoinAnalysis) (i : Nat) (h : i < (rankCoins l).length) :
    (rankCoins l).get ⟨i, h⟩ =
      { (l.mergeSort scoreDescBool).get
          ⟨i, by simpa [rankCoins, List.enum_length] using h⟩ with rank := i + 1 } := by
  simp [rankCoins, List.get_eq_getElem, List.getElem_enum]

/-- C7 amended: after the cycle's sort the coins are ordered by score
descending, and ranks are assigned ordinally: position i (0-based) always
receives rank i+1, so consecutive entries always differ in rank even when
their scores are equal. -/
theorem c7_ordinal_ranks (l : List CoinAnalysis) :
    (∀ (i : Nat) (h : i < (rankCoins l).length), ((rankCoins l).get ⟨i, h⟩).rank = i + 1) ∧
    List.Pairwise (fun a b => b.score ≤ a.score) (rankCoins l) := by
  constructor
  · intro i h
    rw [rankCoins_get]
  · apply List.pairwise_iff_get.mpr
    intro i j hij
    rw [rankCoins_get, rankCoins_get]
    have hpw := List.sorted_mergeSort scoreDescBool_trans scoreDescBool_total l
    have hrel := List.pairwise_iff_get.mp hpw
      ⟨i, by simpa [rankCoins, List.enum_length] using i.isLt⟩
      ⟨j, by simpa [rankCoins, List.enum_length] using j.isLt⟩ hij
    simpa [scoreDescBool] using hrel

/-- A coin used in concrete counterexamples: score 50. -/
def coinEqA : CoinAnalysis :=
  { symbol := "AAA/USDT", price_usdt := 1, price_btc := none, returns_vs_btc := [],
    rsi := none, atr_percent := none, volume_usd := 0, spread_percent := 0, score := 50 }

/-- A second coin with the same score 50 but a different symbol. -/
def coinEqB : CoinAnalysis :=
  { symbol := "BBB/USDT", price_usdt := 1, price_btc := none, returns_vs_btc := [],
    rsi := none, atr_percent := none, volume_usd := 0, spread_percent := 0, score := 50 }

/-- C7 counterexample: two assets with the identical score 50 receive the
distinct ranks 1 and 2 — the rank is the 1-based position, not a dense rank,
so the claim that equal scores receive equal ranks is false. -/
theorem c7_equal_scores_distinct_ranks :
    (rankCoins [coinEqA, coinEqB]).map CoinAnalysis.score = [50, 50] ∧
    (rankCoins [coinEqA, coinEqB]).map CoinAnalysis.rank = [1, 2] ∧
    ¬ (∀ a ∈ rankCoins [coinEqA, coinEqB], ∀ b ∈ rankCoins [coinEqA, coinEqB],
        a.score = b.score → a.rank = b.rank) := by
  have hsort : [coinEqA, coinEqB].mergeSort scoreDescBool = [coinEqA, coinEqB] :=
    List.mergeSort_of_sorted (by
      simp only [List.pairwise_cons, List.mem_singleton, List.not_mem_nil, scoreDescBool]
      norm_num [coinEqA, coinEqB])
  have hrank : rankCoins [coinEqA, coinEqB] =
      [{ coinEqA with rank := 1 }, { coinEqB with rank := 2 }] := by
    simp [rankCoins, hsort, List.enum]
  refine ⟨?_, ?_, ?_⟩
  · rw [hrank]; rfl
  · rw [hrank]; rfl
  · intro hclaim
    have h12 := hclaim { coinEqA with rank := 1 } (by rw [hrank]; exact List.mem_cons_self _ _)
      { coinEqB with rank := 2 } (by rw [hrank]; simp)
    have : (1 : Nat) = 2 := h12 rfl
    omega

/-- A coin whose score 10 banded through generate_recommendation yields
STRONG_SELL (analyzer.py line 146). -/
def coinStrongSell : CoinAnalysis :=
  { symbol := "CCC/USDT", price_usdt := 1, price_btc := none, returns_vs_btc := [],
    rsi := none, atr_percent := none, volume_usd := 0, spread_percent := 0,
    score := 10, recommendation := generate_recommendation 10 [] }

unseal String.splitOnAux in
/-- C8 counterexample: the strong-signal filter is
score at least 80 OR recommendation containing "STRONG_"; a coin with score 10
is recommended STRONG_SELL and therefore notified even though its score is
far below 80, refuting the claimed only-if direction. -/
theorem c8_strong_sell_notified_below_80 :
    notifiedCoins [coinStrongSell] = [coinStrongSell] ∧
    coinStrongSell.score < 80 ∧
    coinStrongSell.recommendation = "STRONG_SELL" := by
  have hrec : coinStrongSell.recommendation = "STRONG_SELL" := by
    norm_num [coinStrongSell, generate_recommendation]
  have htag : strongTag "STRONG_SELL" = true := by decide
  refine ⟨?_, by norm_num [coinStrongSell], hrec⟩
  simp [notifiedCoins, strongSignalCoins, List.filter_cons, hrec, htag]

/-- C8 amended: a strong-signal notification goes to an asset iff it is among
the first three whose score is at least 80 or whose recommendation contains
"STRONG_" (so STRONG_SELL assets are notified too); the top pair is notified
iff the pair list is nonempty and its head's pair score exceeds 60. -/
theorem c8_notification_rules (coins : List CoinAnalysis) :
    (∀ c ∈ notifiedCoins coins, 80 ≤ c.score ∨ strongTag c.recommendation = true) ∧
    (notifiedCoins coins).length ≤ 3 ∧
    (∀ pairs : List PairAnalysis, topPairNotified pairs = true ↔
      ∃ best rest, pairs = best :: rest ∧ 60 < best.pair_score) := by
  refine ⟨?_, ?_, ?_⟩
  · intro c hc
    have hm := (List.mem_filter.mp (List.mem_of_mem_take hc)).2
    rcases Bool.or_eq_true .. |>.mp hm with h | h
    · exact Or.inl (of_decide_eq_true h)
    · exact Or.inr h
  · unfold notifiedCoins
    exact List.length_take_le _ _
  · intro pairs
    cases pairs with
    | nil =>
      simp [topPairNotified]
    | cons b rest =>
      simp [topPairNotified]

/-- A high-scoring coin used as a witness for the notification rules. -/
def coinHigh : CoinAnalysis :=
  { symbol := "DDD/USDT", price_usdt := 1, price_btc := none, returns_vs_btc := [],
    rsi := none, atr_percent := none, volume_usd := 0, spread_percent := 0,
    score := 90, recommendation := "STRONG_BUY" }

/-- Witness for c8_notification_rules: a score-90 coin is notified and indeed
satisfies the disjunctive condition. -/
theorem c8_notification_rules_witness :
    80 ≤ coinHigh.score ∨ strongTag coinHigh.recommendation = true :=
  (c8_notification_rules [coinHigh]).1 coinHigh (by
    have h80 : decide (80 ≤ coinHigh.score) = true :=
      decide_eq_true (by norm_num [coinHigh])
    simp [notifiedCoins, strongSignalCoins, List.filter_cons, h80])

/-- A strongly scored coin for the pair-matching witnesses. -/
def coinStrong : CoinAnalysis :=
  { symbol := "AAA/USDT", price_usdt := 10, price_btc := none,
    returns_vs_btc := [("4h", 10)], rsi := none, atr_percent := none,
    volume_usd := 0, spread_percent := 0, score := 90 }

/-- A weakly scored coin for the pair-matching witnesses. -/
def coinWeak : CoinAnalysis :=
  { symbol := "BBB/USDT", price_usdt := 10, price_btc := none,
    returns_vs_btc := [("4h", 0)], rsi := none, atr_percent := none,
    volume_usd := 0, spread_percent := 0, score := 10 }

unseal String.splitOnAux in
/-- Concrete evaluation of find_best_pairs on the two-coin universe with
top_n = 1: exactly the momentum pair (strong, weak) is returned. -/
lemma fbp_concrete :
    find_best_pairs [coinStrong, coinWeak] 1 = [analyze_pair coinStrong coinWeak] := by
  have hsort : [coinStrong, coinWeak].mergeSort scoreDescBool = [coinStrong, coinWeak] :=
    List.mergeSort_of_sorted (by
      simp only [List.pairwise_cons, List.mem_singleton, List.not_mem_nil, scoreDescBool]
      norm_num [coinStrong, coinWeak])
  have hcond : 20 < coinStrong.score - coinWeak.score ∧
      3 < (coinStrong.returns_vs_btc.lookup "4h").getD 0 -
        (coinWeak.returns_vs_btc.lookup "4h").getD 0 := by
    constructor <;> norm_num [coinStrong, coinWeak, List.lookup]
  have hrec : (analyze_pair coinStrong coinWeak).recommendation ≠ "NEUTRAL" := by
    unfold analyze_pair
    dsimp only
    rw [if_pos hcond]
    decide
  have hsym : coinStrong.symbol ≠ coinWeak.symbol := by
    simp [coinStrong, coinWeak]
  unfold find_best_pairs
  rw [hsort]
  simp only [List.take, List.length_cons, List.length_nil, List.drop,
    List.flatMap_cons, List.flatMap_nil, List.filterMap_cons, List.filterMap_nil,
    if_pos hsym, if_pos hrec, List.append_nil, List.mergeSort_singleton,
    if_neg (by omega : ¬ (1 : Nat) = 0)]

/-- Witness for c4_score_pure_rounded_bounded at a concrete coin. -/
theorem c4_score_bounds_witness :
    0 ≤ score_coin coinEqA ∧ score_coin coinEqA ≤ 100 :=
  ⟨(c4_score_pure_rounded_bounded coinEqA).2.2.1,
   (c4_score_pure_rounded_bounded coinEqA).2.2.2⟩

/-- Witness for c5_no_self_pair: the candidate returned on the two-coin
universe comes from two distinct-symbol input coins. -/
theorem c5_no_self_pair_witness :
    ∃ c1 c2, c1 ∈ [coinStrong, coinWeak] ∧ c2 ∈ [coinStrong, coinWeak] ∧
      c1.symbol ≠ c2.symbol ∧ analyze_pair coinStrong coinWeak = analyze_pair c1 c2 :=
  c5_no_self_pair [coinStrong, coinWeak] 1 (analyze_pair coinStrong coinWeak)
    (by rw [fbp_concrete]; exact List.mem_singleton.mpr rfl)

/-- Witness for c6_pair_rules: score difference 80 and 4h differential 10
produce the momentum recommendation for the (strong, weak) pair. -/
theorem c6_pair_rules_witness :
    (analyze_pair coinStrong coinWeak).recommendation =
      "LONG_" ++ baseAsset coinStrong.symbol ++ "_SHORT_" ++ baseAsset coinWeak.symbol ∧
    (analyze_pair coinStrong coinWeak).entry_logic = "Strong vs Weak momentum" :=
  (c6_pair_rules coinStrong coinWeak [] 0).1.mpr
    (by constructor <;> norm_num [coinStrong, coinWeak, List.lookup])

/-- Witness for c7_ordinal_ranks: the first ranked coin has rank 1. -/
theorem c7_ordinal_ranks_witness :
    ∃ h : 0 < (rankCoins [coinEqA, coinEqB]).length,
      ((rankCoins [coinEqA, coinEqB]).get ⟨0, h⟩).rank = 1 := by
  have h : 0 < (rankCoins [coinEqA, coinEqB]).length := by
    simp [rankCoins, List.enum_length]
  exact ⟨h, (c7_ordinal_ranks [coinEqA, coinEqB]).1 0 h⟩

/-- Witness for c10_mean_reversion_unreachable on a 2-coin universe with
top_n = 1 (2 * 1 ≤ 2): the returned candidate is a momentum pair. -/
theorem c10_mean_reversion_unreachable_witness :
    (analyze_pair coinStrong coinWeak).entry_logic = "Strong vs Weak momentum" ∧
    (analyze_pair coinStrong coinWeak).entry_logic ≠ "Weak vs Strong mean reversion" ∧
    20 < (analyze_pair coinStrong coinWeak).score_difference :=
  c10_mean_reversion_unreachable [coinStrong, coinWeak] 1 (by decide)
    (analyze_pair coinStrong coinWeak)
    (by rw [fbp_concrete]; exact List.mem_singleton.mpr rfl)

end PairScanner
